import Mathlib

/-!
Verification development for the pichulie-backend user/credential core.

The definitions below are a shallow embedding of the JavaScript source:
  - src/apps/user/controllers/controllers.js   (register, login,
    requestPasswordReset, resetPassword, validateResetToken,
    resendResetToken)
  - src/apps/user/middlewares/middlewares.js   (loginLimiter)
  - src/middlewares/auth.js                    (authenticateToken)
  - src/apps/user/models/models.js             (User schema)

Conventions of the embedding:
  - The MongoDB user collection is a `List UserRec`; `findOne` is
    `List.find?` (first match in natural order) and `save` rewrites the
    record with the same `_id`.
  - `Date.now()` is an explicit `now : Int` parameter (milliseconds).
  - Fields coming from `req.body` / headers are `Option` values; JS
    falsiness of strings ("" and undefined are falsy) is `jsStrTruthy`.
  - bcrypt hashing, bcrypt comparison and jwt signing are opaque function
    parameters; jwt verification is a function into `VerifyResult`
    mirroring the error names the middleware branches on.
  - The outcome of `transporter.sendMail` is a boolean parameter
    (`sendOk`); in `requestPasswordReset` a rejection propagates to the
    surrounding catch block (`handleServerError`, a 5xx response), in
    `resendResetToken` it is swallowed by the inner try/catch.
-/

/-- A JSON response body: one optional slot per key that any handler of the
embedded core ever writes.  Absent key = `none`, so two bodies have the
same shape and content iff they are equal.  The misspelled `mesagge` key
is exactly what the blocked-account branch of `login` writes. -/
structure Body where
  message : Option String := none
  mesagge : Option String := none
  success : Option Bool := none
  valid : Option Bool := none
  errorType : Option String := none
  canResend : Option Bool := none
  email : Option String := none
  expiresAt : Option Int := none
  note : Option String := none
  token : Option String := none
  userId : Option Nat := none
  user : Option (Nat × String × String) := none
  redirectTo : Option String := none
  redirectDelay : Option Int := none
  action : Option String := none
  deriving Repr, DecidableEq

/-- An HTTP response: status code plus JSON body. -/
structure Response where
  status : Nat
  body : Body
  deriving Repr, DecidableEq

/-- The User document (src/apps/user/models/models.js).  `password` holds
the bcrypt hash.  The three reset fields are optional exactly as in the
schema; `resetPasswordUsed` defaults to false. -/
structure UserRec where
  id : Nat
  email : String
  password : String
  name : String
  age : Int
  isBlocked : Bool := false
  resetPasswordToken : Option String := none
  resetPasswordExpires : Option Int := none
  resetPasswordUsed : Bool := false
  deriving Repr, DecidableEq

/-- JS truthiness of an optional string field: undefined and "" are falsy. -/
def jsStrTruthy : Option String → Bool
  | none => false
  | some s => !(s == "")

/-- JS truthiness of an optional number field: undefined and 0 are falsy. -/
def jsIntTruthy : Option Int → Bool
  | none => false
  | some n => !(n == 0)

/-- The password regex of the source,
/^(?=.*[a-z])(?=.*[A-Z])(?=.*\d).+$/ : nonempty, at least one ASCII
lowercase letter, one ASCII uppercase letter and one ASCII digit. -/
def passwordRegexTest (s : String) : Bool :=
  !(s == "") && s.toList.any Char.isLower && s.toList.any Char.isUpper
    && s.toList.any (fun c => c.isDigit)

/-- The JS comparison `Date.now() > user.resetPasswordExpires`: false when
the expiry field is unset (NaN comparison), else a numeric comparison. -/
def jsNowPastExpires (now : Int) (expires : Option Int) : Bool :=
  match expires with
  | some e => decide (e < now)
  | none => false

/-- `User.findOne({ email })` — first record whose email equals the query
string exactly (the schema declares no lowercasing and no collation, so
the match is case-sensitive). -/
def findByEmail (store : List UserRec) (email : String) : Option UserRec :=
  store.find? (fun u => u.email == email)

/-- `User.findOne({ resetPasswordToken: token })` — first record whose
stored reset token equals the supplied string.  A record whose token
field is unset does not match. -/
def findByToken (store : List UserRec) (token : String) : Option UserRec :=
  store.find? (fun u => u.resetPasswordToken == some token)

/-- `user.save()` after mutating a fetched document: every stored record
with the same `_id` is replaced by the new version. -/
def saveUser (store : List UserRec) (u : UserRec) : List UserRec :=
  store.map (fun v => if v.id == u.id then u else v)

/-- The generic 5xx answer produced when a handler's catch block fires
(`handleServerError` resolves to the global error middleware's 5xx
branch). -/
def serverError500 : Response :=
  ⟨500, { success := some false, message := some "Try again later" }⟩

/-- validateResetToken (controllers.js 624-695): missing-token guard, then
lookup by token, then the used check, then the expiry check
(`Date.now() > user.resetPasswordExpires`; an unset expiry compares
false), else the valid answer carrying the owner email and expiry. -/
def validateResetToken (store : List UserRec) (now : Int) (token : String) :
    Response :=
  if token == "" then
    ⟨400, { message := some "Token is required", valid := some false,
            errorType := some "missing_token" }⟩
  else
    match findByToken store token with
    | none =>
        ⟨400, { message := some "Enlace inválido o caducado",
                valid := some false, errorType := some "invalid_token",
                canResend := some false }⟩
    | some user =>
        if user.resetPasswordUsed then
          ⟨400, { message := some "Este enlace ya fue utilizado",
                  valid := some false, errorType := some "token_used",
                  canResend := some true, email := some user.email }⟩
        else if jsNowPastExpires now user.resetPasswordExpires then
          ⟨400, { message := some "Enlace expirado", valid := some false,
                  errorType := some "token_expired",
                  canResend := some true, email := some user.email }⟩
        else
          ⟨200, { message := some "Token is valid", valid := some true,
                  email := some user.email,
                  expiresAt := user.resetPasswordExpires }⟩

/-- resetPassword (controllers.js 522-589): field guards, strength checks,
lookup by token, used check, expiry check; on success the password hash
is stored, the token and expiry fields are cleared (`undefined`), the
used flag is set, and the document is saved. -/
def resetPassword (store : List UserRec) (now : Int)
    (token newPassword : Option String) (hash : String → String) :
    Response × List UserRec :=
  if !(jsStrTruthy token && jsStrTruthy newPassword) then
    (⟨400, { message := some "Token and new password are required" }⟩, store)
  else
    let t := token.getD ""
    let pw := newPassword.getD ""
    if pw.length < 8 then
      (⟨400, { message := some "Password must be at least 8 characters long" }⟩,
       store)
    else if !passwordRegexTest pw then
      (⟨400, { message := some "Password must contain at least one uppercase letter, one lowercase letter, and one number." }⟩,
       store)
    else
      match findByToken store t with
      | none => (⟨400, { message := some "Invalid reset token" }⟩, store)
      | some user =>
          if user.resetPasswordUsed then
            (⟨400, { message := some "This reset link has already been used" }⟩,
             store)
          else if jsNowPastExpires now user.resetPasswordExpires then
            (⟨400, { message := some "Reset token has expired" }⟩, store)
          else
            let user' : UserRec :=
              { user with password := hash pw, resetPasswordToken := none,
                          resetPasswordExpires := none,
                          resetPasswordUsed := true }
            (⟨200, { success := some true,
                     message := some "Password reset successfully",
                     redirectTo := some "/login",
                     redirectDelay := some 500 }⟩,
             saveUser store user')

/-- requestPasswordReset (controllers.js 431-492): missing-email guard;
lookup by email; when absent, the 202 enumeration-safe answer; when
found, the fresh token and 1-hour expiry are saved (used flag reset)
before the email is sent.  `sendMail` is awaited WITHOUT an inner
try/catch, so a delivery failure (`sendOk = false`) throws into the
outer catch and becomes the 5xx handler answer; the token was already
persisted.  On delivery success the handler answers 200. -/
def requestPasswordReset (store : List UserRec) (now : Int)
    (email : Option String) (resetToken : String) (sendOk : Bool) :
    Response × List UserRec :=
  if !(jsStrTruthy email) then
    (⟨400, { message := some "Email is required" }⟩, store)
  else
    match findByEmail store (email.getD "") with
    | none =>
        (⟨202, { success := some true,
                 message := some "You will receive a reset link" }⟩, store)
    | some user =>
        let user' : UserRec :=
          { user with resetPasswordToken := some resetToken,
                      resetPasswordExpires := some (now + 3600000),
                      resetPasswordUsed := false }
        let store' := saveUser store user'
        if sendOk then
          (⟨200, { success := some true,
                   message := some "Reset link sent successfully" }⟩, store')
        else
          (serverError500, store')

/-- resendResetToken (controllers.js 735-801): same structure as
requestPasswordReset except that the absent-email 202 answer carries an
extra `note` key, and `sendMail` IS wrapped in an inner try/catch, so a
delivery failure is swallowed and the 200 answer is sent regardless. -/
def resendResetToken (store : List UserRec) (now : Int)
    (email : Option String) (resetToken : String) (sendOk : Bool) :
    Response × List UserRec :=
  if !(jsStrTruthy email) then
    (⟨400, { message := some "Email is required" }⟩, store)
  else
    match findByEmail store (email.getD "") with
    | none =>
        (⟨202, { success := some true,
                 message := some "You will receive a reset link",
                 note := some "For security reasons, we do not reveal if the email exists" }⟩,
         store)
    | some user =>
        let user' : UserRec :=
          { user with resetPasswordToken := some resetToken,
                      resetPasswordExpires := some (now + 3600000),
                      resetPasswordUsed := false }
        let store' := saveUser store user'
        -- the inner try/catch only logs on delivery failure, so sendOk is
        -- irrelevant: both arms answer 200 over the updated store
        (⟨200, { success := some true,
                 message := some "Nuevo enlace de restablecimiento enviado correctamente" }⟩,
         store')

/-- register (controllers.js 37-96): presence of all five fields (JS
falsiness, so age 0 also counts as missing), age bounds, password
length, password character classes, password confirmation, then an
EXACT-match `findOne({ email })` uniqueness check, then creation of the
record with the bcrypt hash. -/
def register (store : List UserRec) (newId : Nat)
    (email password passwordCheck name : Option String) (age : Option Int)
    (hash : String → String) : Response × List UserRec :=
  if !(jsStrTruthy email && jsStrTruthy password && jsStrTruthy passwordCheck
        && jsStrTruthy name && jsIntTruthy age) then
    (⟨400, { message := some "Not all fields have been entered." }⟩, store)
  else
    let e := email.getD ""
    let pw := password.getD ""
    let pwc := passwordCheck.getD ""
    let nm := name.getD ""
    let a := age.getD 0
    if a < 13 then
      (⟨400, { message := some "You must be at least 13 years old to register" }⟩,
       store)
    else if 122 < a then
      (⟨400, { message := some "Please enter a valid age" }⟩, store)
    else if pw.length < 8 then
      (⟨400, { message := some "Password must be at least 8 characters long" }⟩,
       store)
    else if !passwordRegexTest pw then
      (⟨400, { message := some "Password must contain at least one uppercase letter, one lowercase letter, and one number." }⟩,
       store)
    else if pw ≠ pwc then
      (⟨400, { message := some "Passwords do not match. Please try again" }⟩,
       store)
    else
      match findByEmail store e with
      | some _ =>
          (⟨409, { message := some "An account with this email already exists" }⟩,
           store)
      | none =>
          let newUser : UserRec :=
            { id := newId, email := e, password := hash pw, name := nm,
              age := a }
          (⟨201, { message := some "User registered successfully",
                   userId := some newId }⟩,
           store ++ [newUser])

/-- login (controllers.js 116-152): email lookup (an absent email key
matches no stored record), bcrypt comparison, blocked check (note the
misspelled `mesagge` response key), then the 200 answer with the signed
token and the public user fields.  `compare` is bcrypt.compare and
`sign` is jwt.sign over the id and email claims; an absent password key
makes bcrypt.compare throw into the catch block. -/
def login (store : List UserRec) (email password : Option String)
    (compare : String → String → Bool) (sign : Nat → String → String) :
    Response :=
  match (match email with
         | none => none
         | some e => findByEmail store e) with
  | none => ⟨401, { message := some "Invalid user" }⟩
  | some user =>
      match password with
      | none => serverError500
      | some pw =>
          if !(compare pw user.password) then
            ⟨401, { message := some "Invalid password" }⟩
          else if user.isBlocked then
            ⟨423, { mesagge := some "Account temporarily blocked" }⟩
          else
            ⟨200, { message := some "Succesful login",
                    token := some (sign user.id user.email),
                    user := some (user.id, user.name, user.email) }⟩

/-- Outcome of jwt.verify in the auth middleware: decoded claims (the
middleware only uses `decoded.id`), a JsonWebTokenError, or a
TokenExpiredError. -/
inductive VerifyResult where
  | ok (id : Nat)
  | errJWT
  | errExpired
  deriving Repr, DecidableEq

/-- Result of the auth middleware: either a rejection response, or
`next()` with `req.user = { id, email, name }` attached. -/
inductive AuthOutcome where
  | reject (r : Response)
  | accept (id : Nat) (email name : String)
  deriving Repr, DecidableEq

/-- JS `str.split(sep)` for a one-character separator: splits at every
occurrence, keeping empty pieces, and maps "" to [""]. -/
def splitChar (sep : Char) : List Char → List (List Char)
  | [] => [[]]
  | c :: rest =>
      let r := splitChar sep rest
      if c = sep then [] :: r
      else
        match r with
        | [] => [[c]]
        | h :: t => (c :: h) :: t

/-- `authHeader && authHeader.split(' ')[1]` followed by the `!token`
guard: the token is the second space-separated word of the header, when
the header is truthy and that word exists and is nonempty.  The first
word — the scheme — is never inspected. -/
def extractToken (header : Option String) : Option String :=
  match header with
  | none => none
  | some h =>
      if h == "" then none
      else
        match (splitChar ' ' h.toList).get? 1 with
        | none => none
        | some t => if t.isEmpty then none else some (String.mk t)

/-- authenticateToken (src/middlewares/auth.js): token extraction, jwt
verification (JsonWebTokenError → invalid_token, TokenExpiredError →
token_expired), user lookup by the decoded id, blocked check, then
attachment of exactly id, email and name. -/
def authenticateToken (store : List UserRec) (header : Option String)
    (verify : String → VerifyResult) : AuthOutcome :=
  match extractToken header with
  | none =>
      .reject ⟨401, { success := some false,
                      message := some "Access Token Required",
                      errorType := some "missing_token",
                      action := some "redirect_to_login",
                      redirectTo := some "/login" }⟩
  | some token =>
      match verify token with
      | .errJWT =>
          .reject ⟨401, { success := some false,
                          message := some "Invalid token",
                          errorType := some "invalid_token",
                          action := some "redirect_to_login",
                          redirectTo := some "/login" }⟩
      | .errExpired =>
          .reject ⟨401, { success := some false,
                          message := some "Login session expired",
                          errorType := some "token_expired",
                          action := some "redirect_to_login",
                          redirectTo := some "/login",
                          redirectDelay := some 1000 }⟩
      | .ok id =>
          match store.find? (fun u => u.id == id) with
          | none =>
              .reject ⟨401, { success := some false,
                              message := some "User not found",
                              errorType := some "user_not_found",
                              action := some "redirect_to_login",
                              redirectTo := some "/login" }⟩
          | some user =>
              if user.isBlocked then
                .reject ⟨423, { success := some false,
                                message := some "Account temporarily blocked",
                                errorType := some "account_blocked",
                                action := some "redirect_to_login",
                                redirectTo := some "/login" }⟩
              else
                .accept user.id user.email user.name

/-- One entry of the in-memory `attempts` map of the login limiter. -/
structure AttemptEntry where
  count : Nat
  firstAttempt : Int
  deriving Repr, DecidableEq

/-- MAX_ATTEMPTS of middlewares.js. -/
def MAX_ATTEMPTS : Nat := 5

/-- WINDOW_TIME of middlewares.js: 10 minutes in milliseconds. -/
def WINDOW_TIME : Int := 10 * 60 * 1000

/-- Pointwise update of the attempts map. -/
def setAttempt (m : String → Option AttemptEntry) (ip : String)
    (e : AttemptEntry) : String → Option AttemptEntry :=
  fun j => if j == ip then some e else m j

/-- The empty attempts map (fresh process state). -/
def emptyAttempts : String → Option AttemptEntry := fun _ => none

/-- loginLimiter (middlewares.js 23-43): first sight of an address
creates `{count 1, firstAttempt now}`; inside the window the count is
incremented and the request denied with 429 once the count exceeds
MAX_ATTEMPTS; once the window has elapsed (`diff < WINDOW_TIME` false)
the entry is reset to count 1 with a fresh start and the request passes.
The first component is `some response` when the middleware answered 429,
`none` when it called `next()`. -/
def loginLimiter (m : String → Option AttemptEntry) (ip : String)
    (now : Int) : Option Response × (String → Option AttemptEntry) :=
  match m ip with
  | none => (none, setAttempt m ip ⟨1, now⟩)
  | some e =>
      let diff := now - e.firstAttempt
      if diff < WINDOW_TIME then
        let c := e.count + 1
        let m' := setAttempt m ip ⟨c, e.firstAttempt⟩
        if c > MAX_ATTEMPTS then
          (some ⟨429, { message := some "Too many requests" }⟩, m')
        else (none, m')
      else (none, setAttempt m ip ⟨1, now⟩)

/-- The POST /login route (userRoutes.js 15): loginLimiter first, and the
login controller only when the limiter called next(). -/
def loginRoute (m : String → Option AttemptEntry) (store : List UserRec)
    (ip : String) (now : Int) (email password : Option String)
    (compare : String → String → Bool) (sign : Nat → String → String) :
    Response × (String → Option AttemptEntry) :=
  match loginLimiter m ip now with
  | (some resp, m') => (resp, m')
  | (none, m') => (login store email password compare sign, m')

/-- A sequence of login requests from one client address: each item is
(time, email, password); returns the final attempts map and the
responses in order. -/
def loginSession (m : String → Option AttemptEntry) (store : List UserRec)
    (ip : String) (compare : String → String → Bool)
    (sign : Nat → String → String)
    (reqs : List (Int × Option String × Option String)) :
    (String → Option AttemptEntry) × List Response :=
  reqs.foldl
    (fun acc r =>
      let st := loginRoute acc.1 store ip r.1 r.2.1 r.2.2 compare sign
      (st.2, acc.2 ++ [st.1]))
    (m, [])

/-- Concrete bcrypt stand-in used by closed instances: an injective tagging
function. -/
def demoHash : String → String := fun p => String.append "H:" p

/-- Concrete bcrypt.compare stand-in matching demoHash. -/
def demoCompare : String → String → Bool :=
  fun p h => h == String.append "H:" p

/-- Concrete jwt.sign stand-in. -/
def demoSign : Nat → String → String :=
  fun _ e => String.append "jwt." e

/-- A registered demo user with no live reset token. -/
def alice : UserRec :=
  { id := 1, email := "a@x.com", password := demoHash "Abcdef12",
    name := "A", age := 20 }

/-- Demo user holding a live (unused, unexpired at times before 100) reset
token "tok". -/
def aliceTok : UserRec :=
  { alice with resetPasswordToken := some "tok",
               resetPasswordExpires := some 100 }

/-- Demo user whose reset token "tok" is already marked used (and also
expired at times past 100). -/
def aliceUsed : UserRec :=
  { alice with resetPasswordToken := some "tok",
               resetPasswordExpires := some 100,
               resetPasswordUsed := true }

/-- C5: for every token string supplied to validate, if no user record's
stored reset token equals it the result is reason not_found
(errorType invalid_token); otherwise the used flag is checked before the
expiry, so a found used token — even one also past its expiry — is
reported with reason used (token_used); a found, unused token past its
expiry is reported expired (token_expired); and a found, unused,
unexpired token is reported valid together with the owning user's email
and expiry. -/
theorem validate_reason_order (store : List UserRec) (now : Int)
    (t : String) (ht : t ≠ "") :
    ((∀ v ∈ store, v.resetPasswordToken ≠ some t) →
        (validateResetToken store now t).status = 400 ∧
        (validateResetToken store now t).body.errorType
          = some "invalid_token") ∧
    (∀ u, findByToken store t = some u → u.resetPasswordUsed = true →
        (validateResetToken store now t).status = 400 ∧
        (validateResetToken store now t).body.errorType
          = some "token_used") ∧
    (∀ u e, findByToken store t = some u → u.resetPasswordUsed = false →
        u.resetPasswordExpires = some e → e < now →
        (validateResetToken store now t).status = 400 ∧
        (validateResetToken store now t).body.errorType
          = some "token_expired") ∧
    (∀ u e, findByToken store t = some u → u.resetPasswordUsed = false →
        u.resetPasswordExpires = some e → ¬ e < now →
        validateResetToken store now t =
          ⟨200, { message := some "Token is valid", valid := some true,
                  email := some u.email, expiresAt := some e }⟩) := by
  have hbe : (t == "") = false := by simpa using ht
  refine ⟨?_, ?_, ?_, ?_⟩
  · intro hnone
    have hfind : findByToken store t = none := by
      rw [findByToken, List.find?_eq_none]
      intro v hv
      simpa using hnone v hv
    simp [validateResetToken, hbe, hfind]
  · intro u hfind hused
    simp [validateResetToken, hbe, hfind, hused]
  · intro u e hfind hused hexp hlt
    simp [validateResetToken, hbe, hfind, hused, hexp, jsNowPastExpires, hlt]
  · intro u e hfind hused hexp hnlt
    simp [validateResetToken, hbe, hfind, hused, hexp, jsNowPastExpires, hnlt]

/-- Witness for validate_reason_order: at a concrete store holding a used
and expired token, validation reports token_used. -/
theorem validate_reason_order_witness :
    (validateResetToken [aliceUsed] 200 "tok").status = 400 ∧
    (validateResetToken [aliceUsed] 200 "tok").body.errorType
      = some "token_used" :=
  (validate_reason_order [aliceUsed] 200 "tok" (by decide)).2.1 aliceUsed
    (by rfl) (by rfl)

/-- C9: a reset token that is found in the store but rejected as used or
as expired gets a 400 answer that includes the owning account's email
and canResend true, whereas the not-found rejection carries
canResend false and no email key — so the two rejection classes
disclose account existence and the email tied to the token. -/
theorem validate_rejections_disclose_email (store : List UserRec)
    (now : Int) (t : String) (ht : t ≠ "") :
    (∀ u, findByToken store t = some u → u.resetPasswordUsed = true →
        (validateResetToken store now t).status = 400 ∧
        (validateResetToken store now t).body.canResend = some true ∧
        (validateResetToken store now t).body.email = some u.email) ∧
    (∀ u e, findByToken store t = some u → u.resetPasswordUsed = false →
        u.resetPasswordExpires = some e → e < now →
        (validateResetToken store now t).status = 400 ∧
        (validateResetToken store now t).body.canResend = some true ∧
        (validateResetToken store now t).body.email = some u.email) ∧
    ((∀ v ∈ store, v.resetPasswordToken ≠ some t) →
        (validateResetToken store now t).status = 400 ∧
        (validateResetToken store now t).body.canResend = some false ∧
        (validateResetToken store now t).body.email = none) := by
  have hbe : (t == "") = false := by simpa using ht
  refine ⟨?_, ?_, ?_⟩
  · intro u hfind hused
    simp [validateResetToken, hbe, hfind, hused]
  · intro u e hfind hused hexp hlt
    simp [validateResetToken, hbe, hfind, hused, hexp, jsNowPastExpires, hlt]
  · intro hnone
    have hfind : findByToken store t = none := by
      rw [findByToken, List.find?_eq_none]
      intro v hv
      simpa using hnone v hv
    simp [validateResetToken, hbe, hfind]

/-- Witness for validate_rejections_disclose_email: the used-token
rejection at a concrete store reveals the owner's email address. -/
theorem validate_rejections_disclose_email_witness :
    (validateResetToken [aliceUsed] 200 "tok").status = 400 ∧
    (validateResetToken [aliceUsed] 200 "tok").body.canResend = some true ∧
    (validateResetToken [aliceUsed] 200 "tok").body.email
      = some "a@x.com" :=
  (validate_rejections_disclose_email [aliceUsed] 200 "tok" (by decide)).1
    aliceUsed (by rfl) (by rfl)

/-- Successful consumption characterised: a 200 from resetPassword means
the early guards passed, the token found an unused, unexpired record u,
and the stored state is u rewritten with the new hash, cleared token and
expiry fields, and used flag set. -/
lemma resetPassword_success_inv (store : List UserRec) (now : Int)
    (t pw : String) (hash : String → String) (resp : Response)
    (store' : List UserRec)
    (hrun : resetPassword store now (some t) (some pw) hash = (resp, store'))
    (hok : resp.status = 200) :
    ∃ u, findByToken store t = some u ∧ u.resetPasswordUsed = false ∧
      t ≠ "" ∧ ¬ pw.length < 8 ∧ passwordRegexTest pw = true ∧
      store' = saveUser store
        { u with password := hash pw, resetPasswordToken := none,
                 resetPasswordExpires := none, resetPasswordUsed := true } := by
  rw [resetPassword] at hrun
  split at hrun
  · cases hrun; simp at hok
  · next hguard =>
    simp only [Option.getD] at hrun
    split at hrun
    · cases hrun; simp at hok
    · split at hrun
      · cases hrun; simp at hok
      · next hlen hregex =>
        split at hrun
        · cases hrun; simp at hok
        · next u hfind =>
          split at hrun
          · cases hrun; simp at hok
          · split at hrun
            · cases hrun; simp at hok
            · next hused hexp =>
              cases hrun
              refine ⟨u, hfind, by simpa using hused, ?_, hlen, by simpa using hregex, rfl⟩
              intro h0
              simp [jsStrTruthy, h0] at hguard

/-- After rewriting the (unique) holder of token t with a record whose
token field is cleared, no stored record matches t any more. -/
lemma findByToken_after_clear (store : List UserRec) (t : String)
    (u u' : UserRec) (hmem : u ∈ store) (hu : u.resetPasswordToken = some t)
    (hid : u'.id = u.id) (htok : u'.resetPasswordToken = none)
    (hUniq : ∀ v ∈ store, ∀ w ∈ store, v.resetPasswordToken = some t →
        w.resetPasswordToken = some t → v.id = w.id) :
    findByToken (saveUser store u') t = none := by
  rw [findByToken, List.find?_eq_none]
  intro v hv
  simp only [saveUser, List.mem_map] at hv
  obtain ⟨w, hw, hveq⟩ := hv
  by_cases hc : w.id == u'.id
  · rw [if_pos hc] at hveq
    subst hveq
    simp [htok]
  · rw [if_neg hc] at hveq
    subst hveq
    intro hwt
    have hwt' : w.resetPasswordToken = some t := by simpa using hwt
    have : w.id = u.id := hUniq w hw u hmem hwt' hu
    exact hc (by simp [this, hid])

/-- C1 (amended): once a reset token has been successfully consumed,
every subsequent validate or consume call on it fails — but with the
not-found discriminator (errorType invalid_token, message
"Invalid reset token"), not with reason used: consumption clears the
stored token field, so the lookup no longer matches and the used branch
cannot fire for the consumed value.  The uniqueness hypothesis says the
token value was held by (at most) one account, which the issuing flow
guarantees.  The failed re-consume also leaves the store unchanged. -/
theorem consumed_token_rejected_as_not_found (store : List UserRec)
    (now now2 : Int) (t pw : String) (hash : String → String)
    (resp : Response) (store' : List UserRec)
    (hUniq : ∀ v ∈ store, ∀ w ∈ store, v.resetPasswordToken = some t →
        w.resetPasswordToken = some t → v.id = w.id)
    (hrun : resetPassword store now (some t) (some pw) hash = (resp, store'))
    (hok : resp.status = 200) :
    (validateResetToken store' now2 t).status = 400 ∧
    (validateResetToken store' now2 t).body.errorType
      = some "invalid_token" ∧
    (resetPassword store' now2 (some t) (some pw) hash).1.status = 400 ∧
    (resetPassword store' now2 (some t) (some pw) hash).1.body.message
      = some "Invalid reset token" ∧
    (resetPassword store' now2 (some t) (some pw) hash).2 = store' := by
  obtain ⟨u, hfind, hused, ht, hlen, hreg, hst⟩ :=
    resetPassword_success_inv store now t pw hash resp store' hrun hok
  have hmem : u ∈ store := List.mem_of_find?_eq_some hfind
  have hut : u.resetPasswordToken = some t := by
    have := List.find?_some hfind
    simpa using this
  have hnone : findByToken store' t = none := by
    rw [hst]
    exact findByToken_after_clear store t u _ hmem hut rfl rfl hUniq
  have hbe : (t == "") = false := by simpa using ht
  have hpw : pw ≠ "" := by
    intro h
    rw [h] at hlen
    simp at hlen
  have hpwbe : (pw == "") = false := by simpa using hpw
  refine ⟨?_, ?_, ?_, ?_, ?_⟩
  · simp [validateResetToken, hbe, hnone]
  · simp [validateResetToken, hbe, hnone]
  · simp [resetPassword, jsStrTruthy, hbe, hpwbe, hnone, hlen, hreg]
  · simp [resetPassword, jsStrTruthy, hbe, hpwbe, hnone, hlen, hreg]
  · simp [resetPassword, jsStrTruthy, hbe, hpwbe, hnone, hlen, hreg]

/-- Witness for consumed_token_rejected_as_not_found at a concrete store:
consume "tok" for aliceTok, then validate and consume again. -/
theorem consumed_token_rejected_as_not_found_witness :
    (validateResetToken
        (resetPassword [aliceTok] 50 (some "tok") (some "NewPass12")
          demoHash).2 60 "tok").body.errorType = some "invalid_token" :=
  (consumed_token_rejected_as_not_found [aliceTok] 50 60 "tok" "NewPass12"
      demoHash
      (resetPassword [aliceTok] 50 (some "tok") (some "NewPass12")
        demoHash).1
      (resetPassword [aliceTok] 50 (some "tok") (some "NewPass12")
        demoHash).2
      (by decide) (by rfl) (by decide)).2.1

/-- C1 counterexample: at a concrete store the claim as stated is false —
after a successful consume of token "tok" (status 200), the subsequent
validate call reports errorType invalid_token, not token_used, and the
subsequent consume call answers "Invalid reset token". -/
theorem consumed_token_not_reported_used :
    (resetPassword [aliceTok] 50 (some "tok") (some "NewPass12")
        demoHash).1.status = 200 ∧
    (validateResetToken
        (resetPassword [aliceTok] 50 (some "tok") (some "NewPass12")
          demoHash).2 60 "tok").body.errorType = some "invalid_token" ∧
    (validateResetToken
        (resetPassword [aliceTok] 50 (some "tok") (some "NewPass12")
          demoHash).2 60 "tok").body.errorType ≠ some "token_used" ∧
    (resetPassword
        (resetPassword [aliceTok] 50 (some "tok") (some "NewPass12")
          demoHash).2 60 (some "tok") (some "NewPass12")
        demoHash).1.body.message = some "Invalid reset token" := by
  decide

/-- C2: evaluation of both reset-request entry points at a failing input.
With the account a@x.com present, the found-email call answers 200
"Reset link sent successfully" (resend: 200 with the Spanish message)
while the no-user call answers 202 "You will receive a reset link"
(resend additionally carries a note key) — the status codes and bodies
differ between the two cases, although the handler comments promise
consistent 202 responses regardless of email existence. -/
theorem reset_request_distinguishes_email_existence :
    (requestPasswordReset [alice] 50 (some "a@x.com") "tk" true).1.status
      = 200 ∧
    (requestPasswordReset [alice] 50 (some "ghost@nowhere.com") "tk"
        true).1.status = 202 ∧
    (requestPasswordReset [alice] 50 (some "a@x.com") "tk" true).1.body
      ≠ (requestPasswordReset [alice] 50 (some "ghost@nowhere.com") "tk"
          true).1.body ∧
    (resendResetToken [alice] 50 (some "a@x.com") "tk" true).1.status
      = 200 ∧
    (resendResetToken [alice] 50 (some "ghost@nowhere.com") "tk"
        true).1.status = 202 ∧
    (resendResetToken [alice] 50 (some "ghost@nowhere.com") "tk"
        true).1.body.note ≠ none ∧
    (resendResetToken [alice] 50 (some "a@x.com") "tk" true).1.body.note
      = none := by
  decide

/-- C4 counterexample: on the request path a delivery failure DOES fail
the operation — with the user present and the token persisted, a
sendMail rejection surfaces as the 500 handler answer instead of the
success response. -/
theorem request_reset_fails_when_delivery_fails :
    (requestPasswordReset [alice] 50 (some "a@x.com") "tk" false).1.status
      = 500 ∧
    (requestPasswordReset [alice] 50 (some "a@x.com") "tk"
        false).1.body.success = some false := by
  decide

/-- C4 (amended): when the user exists and the token was persisted, a
delivery failure does not change the outcome of resend — the response is
identical to the delivery-success case (200), and the store holds the
fresh token.  On the request path, however, a delivery failure turns the
response into the 500 server error; the persisted token nevertheless
remains the live issued token (the failing run leaves the same store as
the successful one). -/
theorem delivery_failure_outcomes (store : List UserRec) (now : Int)
    (email tk : String) (u : UserRec)
    (hfind : findByEmail store email = some u) (he : email ≠ "") :
    resendResetToken store now (some email) tk false
      = resendResetToken store now (some email) tk true ∧
    (resendResetToken store now (some email) tk false).1.status = 200 ∧
    (resendResetToken store now (some email) tk false).2
      = saveUser store
          { u with resetPasswordToken := some tk,
                   resetPasswordExpires := some (now + 3600000),
                   resetPasswordUsed := false } ∧
    (requestPasswordReset store now (some email) tk false).1.status
      = 500 ∧
    (requestPasswordReset store now (some email) tk false).2
      = saveUser store
          { u with resetPasswordToken := some tk,
                   resetPasswordExpires := some (now + 3600000),
                   resetPasswordUsed := false } := by
  have hbe : (email == "") = false := by simpa using he
  refine ⟨?_, ?_, ?_, ?_, ?_⟩ <;>
    simp [resendResetToken, requestPasswordReset, jsStrTruthy, hbe, hfind,
      serverError500]

/-- Witness for delivery_failure_outcomes at a concrete store: the
request path answers 500 on delivery failure. -/
theorem delivery_failure_outcomes_witness :
    (requestPasswordReset [alice] 50 (some "a@x.com") "tk"
        false).1.status = 500 :=
  (delivery_failure_outcomes [alice] 50 "a@x.com" "tk" alice (by rfl)
      (by decide)).2.2.2.1

/-- Appending a record whose email is the searched one to a store with no
such email makes the lookup find exactly that record. -/
lemma findByEmail_append_self (store : List UserRec) (e : String)
    (u : UserRec) (h : findByEmail store e = none) (hu : u.email = e) :
    findByEmail (store ++ [u]) e = some u := by
  rw [findByEmail, List.find?_append]
  rw [findByEmail] at h
  simp [h, List.find?, hu]

/-- C3 (amended): the registration uniqueness check is an exact
(case-sensitive) string comparison.  A second registration with the
byte-identical email of an already successful one is rejected with 409,
whatever ids and hash functions the two calls use. -/
theorem register_exact_duplicate_conflict (store : List UserRec)
    (n1 n2 : Nat) (email pw pwc nm : Option String) (age : Option Int)
    (h1 h2 : String → String) (resp1 : Response) (store1 : List UserRec)
    (hrun : register store n1 email pw pwc nm age h1 = (resp1, store1))
    (hok : resp1.status = 201) :
    (register store1 n2 email pw pwc nm age h2).1.status = 409 := by
  rw [register] at hrun
  split at hrun
  · cases hrun; simp at hok
  · next hguard =>
    simp only [Option.getD] at hrun
    split at hrun
    · cases hrun; simp at hok
    · next h13 =>
      split at hrun
      · cases hrun; simp at hok
      · next h122 =>
        split at hrun
        · cases hrun; simp at hok
        · next hlen =>
          split at hrun
          · cases hrun; simp at hok
          · next hreg =>
            split at hrun
            · cases hrun; simp at hok
            · next hmatch =>
              split at hrun
              · cases hrun; simp at hok
              · next hfind =>
                cases hrun
                have hfound :
                    findByEmail
                      (store ++
                        [{ id := n1, email := (email.getD ""),
                           password := h1 (pw.getD ""),
                           name := (nm.getD ""), age := (age.getD 0) }])
                      (email.getD "")
                    = some
                      { id := n1, email := (email.getD ""),
                        password := h1 (pw.getD ""),
                        name := (nm.getD ""), age := (age.getD 0) } :=
                  findByEmail_append_self store (email.getD "") _ hfind rfl
                rw [register]
                rw [if_neg hguard]
                simp only [Option.getD] at hfound ⊢
                rw [if_neg h13, if_neg h122, if_neg hlen, if_neg hreg,
                  if_neg hmatch, hfound]

/-- Witness for register_exact_duplicate_conflict: registering a@x.com
twice with identical spelling yields 409 the second time. -/
theorem register_exact_duplicate_conflict_witness :
    (register
        (register ([] : List UserRec) 1 (some "a@x.com") (some "Abcdef12")
          (some "Abcdef12") (some "A") (some 20) demoHash).2
        2 (some "a@x.com") (some "Abcdef12") (some "Abcdef12") (some "A")
        (some 20) demoHash).1.status = 409 :=
  register_exact_duplicate_conflict ([] : List UserRec) 1 2
    (some "a@x.com") (some "Abcdef12") (some "Abcdef12") (some "A")
    (some 20) demoHash demoHash
    (register ([] : List UserRec) 1 (some "a@x.com") (some "Abcdef12")
      (some "Abcdef12") (some "A") (some 20) demoHash).1
    (register ([] : List UserRec) 1 (some "a@x.com") (some "Abcdef12")
      (some "Abcdef12") (some "A") (some 20) demoHash).2
    (by rfl) (by decide)

/-- C3 counterexample: two otherwise-valid registrations whose emails are
case variants of each other BOTH answer 201 — the second is not
rejected with 409, because the uniqueness lookup is case-sensitive. -/
theorem register_case_variant_both_succeed :
    (register ([] : List UserRec) 1 (some "a@x.com") (some "Abcdef12")
        (some "Abcdef12") (some "A") (some 20) demoHash).1.status = 201 ∧
    (register
        (register ([] : List UserRec) 1 (some "a@x.com") (some "Abcdef12")
          (some "Abcdef12") (some "A") (some 20) demoHash).2
        2 (some "A@X.com") (some "Abcdef12") (some "Abcdef12") (some "A")
        (some 20) demoHash).1.status = 201 ∧
    (register
        (register ([] : List UserRec) 1 (some "a@x.com") (some "Abcdef12")
          (some "Abcdef12") (some "A") (some 20) demoHash).2
        2 (some "A@X.com") (some "Abcdef12") (some "Abcdef12") (some "A")
        (some 20) demoHash).1.status ≠ 409 := by
  decide

/-- C8 (amended): both login failure classes answer status 401, but the
bodies reveal which factor failed — an unknown email answers message
"Invalid user" while a known email with a wrong password answers
"Invalid password". -/
theorem login_401_reveals_failed_factor (store : List UserRec)
    (email pw : String) (compare : String → String → Bool)
    (sign : Nat → String → String) :
    ((∀ v ∈ store, v.email ≠ email) →
        login store (some email) (some pw) compare sign
          = ⟨401, { message := some "Invalid user" }⟩) ∧
    (∀ u, findByEmail store email = some u → compare pw u.password = false →
        login store (some email) (some pw) compare sign
          = ⟨401, { message := some "Invalid password" }⟩) := by
  constructor
  · intro hnone
    have hfind : findByEmail store email = none := by
      rw [findByEmail, List.find?_eq_none]
      intro v hv
      simpa using hnone v hv
    simp [login, hfind]
  · intro u hfind hcmp
    simp [login, hfind, hcmp]

/-- Witness for login_401_reveals_failed_factor at a concrete store: the
unknown-email and wrong-password branches produce their two distinct
401 bodies. -/
theorem login_401_reveals_failed_factor_witness :
    login [alice] (some "ghost@x.com") (some "Abcdef12") demoCompare
        demoSign = ⟨401, { message := some "Invalid user" }⟩ ∧
    login [alice] (some "a@x.com") (some "Wrong1234") demoCompare demoSign
      = ⟨401, { message := some "Invalid password" }⟩ :=
  ⟨(login_401_reveals_failed_factor [alice] "ghost@x.com" "Abcdef12"
      demoCompare demoSign).1 (by decide),
   (login_401_reveals_failed_factor [alice] "a@x.com" "Wrong1234"
      demoCompare demoSign).2 alice (by rfl) (by decide)⟩

/-- C8 counterexample: at a concrete store the two 401 rejections are
distinguishable — their bodies differ ("Invalid user" against
"Invalid password"), so the response does reveal which factor failed. -/
theorem login_error_bodies_differ :
    (login [alice] (some "ghost@x.com") (some "Abcdef12") demoCompare
        demoSign).status = 401 ∧
    (login [alice] (some "a@x.com") (some "Wrong1234") demoCompare
        demoSign).status = 401 ∧
    (login [alice] (some "ghost@x.com") (some "Abcdef12") demoCompare
        demoSign).body
      ≠ (login [alice] (some "a@x.com") (some "Wrong1234") demoCompare
          demoSign).body := by
  decide

/-- C6 (amended): the guard checks run in order with short-circuiting and
the stated discriminators, except that step one never inspects the
scheme word: the token is simply the second space-separated word of the
header, so a header is rejected as missing_token exactly when that word
is absent or empty; any header with a nonempty second word — "Bearer"
or not — proceeds to verification.  Failures yield a rejection (no
identity attached); success attaches exactly the id, email and name of
the resolved user. -/
theorem authenticate_order_and_discriminators (store : List UserRec)
    (header : Option String) (verify : String → VerifyResult) :
    (extractToken header = none →
        authenticateToken store header verify
          = .reject ⟨401, { success := some false,
                            message := some "Access Token Required",
                            errorType := some "missing_token",
                            action := some "redirect_to_login",
                            redirectTo := some "/login" }⟩) ∧
    (∀ tk, extractToken header = some tk → verify tk = .errJWT →
        authenticateToken store header verify
          = .reject ⟨401, { success := some false,
                            message := some "Invalid token",
                            errorType := some "invalid_token",
                            action := some "redirect_to_login",
                            redirectTo := some "/login" }⟩) ∧
    (∀ tk, extractToken header = some tk → verify tk = .errExpired →
        authenticateToken store header verify
          = .reject ⟨401, { success := some false,
                            message := some "Login session expired",
                            errorType := some "token_expired",
                            action := some "redirect_to_login",
                            redirectTo := some "/login",
                            redirectDelay := some 1000 }⟩) ∧
    (∀ tk i, extractToken header = some tk → verify tk = .ok i →
        store.find? (fun u => u.id == i) = none →
        authenticateToken store header verify
          = .reject ⟨401, { success := some false,
                            message := some "User not found",
                            errorType := some "user_not_found",
                            action := some "redirect_to_login",
                            redirectTo := some "/login" }⟩) ∧
    (∀ tk i u, extractToken header = some tk → verify tk = .ok i →
        store.find? (fun v => v.id == i) = some u → u.isBlocked = true →
        authenticateToken store header verify
          = .reject ⟨423, { success := some false,
                            message := some "Account temporarily blocked",
                            errorType := some "account_blocked",
                            action := some "redirect_to_login",
                            redirectTo := some "/login" }⟩) ∧
    (∀ tk i u, extractToken header = some tk → verify tk = .ok i →
        store.find? (fun v => v.id == i) = some u → u.isBlocked = false →
        authenticateToken store header verify
          = .accept u.id u.email u.name) := by
  refine ⟨?_, ?_, ?_, ?_, ?_, ?_⟩
  · intro hext
    simp [authenticateToken, hext]
  · intro tk hext hv
    simp [authenticateToken, hext, hv]
  · intro tk hext hv
    simp [authenticateToken, hext, hv]
  · intro tk i hext hv hfind
    simp [authenticateToken, hext, hv, hfind]
  · intro tk i u hext hv hfind hb
    simp [authenticateToken, hext, hv, hfind, hb]
  · intro tk i u hext hv hfind hb
    simp [authenticateToken, hext, hv, hfind, hb]

/-- Witness for authenticate_order_and_discriminators: a concrete blocked
user is rejected with 423 account_blocked, and the same user unblocked
is accepted with exactly id, email and name. -/
theorem authenticate_order_and_discriminators_witness :
    authenticateToken [{ alice with isBlocked := true }] (some "Bearer t1")
        (fun _ => VerifyResult.ok 1)
      = .reject ⟨423, { success := some false,
                        message := some "Account temporarily blocked",
                        errorType := some "account_blocked",
                        action := some "redirect_to_login",
                        redirectTo := some "/login" }⟩ ∧
    authenticateToken [alice] (some "Bearer t1")
        (fun _ => VerifyResult.ok 1)
      = .accept 1 "a@x.com" "A" :=
  ⟨(authenticate_order_and_discriminators [{ alice with isBlocked := true }]
      (some "Bearer t1") (fun _ => VerifyResult.ok 1)).2.2.2.2.1 "t1" 1
      { alice with isBlocked := true } (by rfl) (by rfl) (by rfl) (by rfl),
   (authenticate_order_and_discriminators [alice] (some "Bearer t1")
      (fun _ => VerifyResult.ok 1)).2.2.2.2.2 "t1" 1 alice (by rfl)
      (by rfl) (by rfl) (by rfl)⟩

/-- C6 counterexample: a header that is not of the form "Bearer token"
does not yield missing_token — the middleware takes the second word as
the token and lets verification decide, so "Basic abc" with a failing
verifier is rejected as invalid_token. -/
theorem non_bearer_header_not_rejected_as_missing :
    authenticateToken ([] : List UserRec) (some "Basic abc")
        (fun _ => VerifyResult.errJWT)
      = .reject ⟨401, { success := some false,
                        message := some "Invalid token",
                        errorType := some "invalid_token",
                        action := some "redirect_to_login",
                        redirectTo := some "/login" }⟩ ∧
    authenticateToken ([] : List UserRec) (some "Basic abc")
        (fun _ => VerifyResult.errJWT)
      ≠ .reject ⟨401, { success := some false,
                        message := some "Access Token Required",
                        errorType := some "missing_token",
                        action := some "redirect_to_login",
                        redirectTo := some "/login" }⟩ := by
  decide

/-- The attempts map produced by a sequence of limiter passes for one
client address, starting from the fresh process state. -/
def limiterStateRun (ip : String) (ts : List Int) :
    String → Option AttemptEntry :=
  ts.foldl (fun m t => (loginLimiter m ip t).2) emptyAttempts

/-- C7: after five attempts whose times fall within the 10-minute window
opened by the first, a sixth attempt still inside the window is denied
with the 429 throttle response, while a sixth attempt arriving once the
window has elapsed (measured from the first attempt) resets the counter
to 1 with a fresh window start and is passed through to the controller
(the limiter calls next). -/
theorem sixth_attempt_throttled_within_window (ip : String)
    (t1 t2 t3 t4 t5 t6 : Int)
    (h2 : t2 - t1 < WINDOW_TIME) (h3 : t3 - t1 < WINDOW_TIME)
    (h4 : t4 - t1 < WINDOW_TIME) (h5 : t5 - t1 < WINDOW_TIME) :
    (t6 - t1 < WINDOW_TIME →
        (loginLimiter (limiterStateRun ip [t1, t2, t3, t4, t5]) ip t6).1
          = some ⟨429, { message := some "Too many requests" }⟩) ∧
    (WINDOW_TIME ≤ t6 - t1 →
        (loginLimiter (limiterStateRun ip [t1, t2, t3, t4, t5]) ip t6).1
            = none ∧
        (loginLimiter (limiterStateRun ip [t1, t2, t3, t4, t5]) ip t6).2 ip
          = some ⟨1, t6⟩) := by
  have hm5 : limiterStateRun ip [t1, t2, t3, t4, t5] ip = some ⟨5, t1⟩ := by
    simp [limiterStateRun, loginLimiter, emptyAttempts, setAttempt,
      MAX_ATTEMPTS, h2, h3, h4, h5]
  constructor
  · intro h6
    simp [loginLimiter, hm5, MAX_ATTEMPTS, h6]
  · intro h6
    have hn : ¬ (t6 - t1 < WINDOW_TIME) := not_lt.mpr h6
    constructor
    · simp [loginLimiter, hm5, hn]
    · simp [loginLimiter, hm5, hn, setAttempt]

/-- Witness for sixth_attempt_throttled_within_window at concrete times:
a sixth attempt at 5 ms is denied; a sixth attempt at exactly the window
length is passed through with the counter reset to 1. -/
theorem sixth_attempt_throttled_within_window_witness :
    (loginLimiter (limiterStateRun "c" [0, 1, 2, 3, 4]) "c" 5).1
      = some ⟨429, { message := some "Too many requests" }⟩ ∧
    (loginLimiter (limiterStateRun "c" [0, 1, 2, 3, 4]) "c" 600000).1
        = none ∧
    (loginLimiter (limiterStateRun "c" [0, 1, 2, 3, 4]) "c" 600000).2 "c"
      = some ⟨1, 600000⟩ :=
  ⟨(sixth_attempt_throttled_within_window "c" 0 1 2 3 4 5 (by decide)
      (by decide) (by decide) (by decide)).1 (by decide),
   (sixth_attempt_throttled_within_window "c" 0 1 2 3 4 600000 (by decide)
      (by decide) (by decide) (by decide)).2 (by decide)⟩

/-- The attempts-map component of the login route is the limiter's map
update, whatever the controller answers. -/
lemma loginRoute_snd (m : String → Option AttemptEntry)
    (store : List UserRec) (ip : String) (t : Int)
    (e p : Option String) (compare : String → String → Bool)
    (sign : Nat → String → String) :
    (loginRoute m store ip t e p compare sign).2 = (loginLimiter m ip t).2 := by
  unfold loginRoute
  split
  · next heq => rw [heq]
  · next heq => rw [heq]

/-- The final attempts map of a login session is the limiter-only fold of
the request times: controller outcomes never touch it. -/
lemma loginSession_fold_fst (store : List UserRec) (ip : String)
    (compare : String → String → Bool) (sign : Nat → String → String) :
    ∀ (reqs : List (Int × Option String × Option String))
      (m : String → Option AttemptEntry) (rs : List Response),
      (reqs.foldl
        (fun acc r =>
          let st := loginRoute acc.1 store ip r.1 r.2.1 r.2.2 compare sign
          (st.2, acc.2 ++ [st.1])) (m, rs)).1
      = reqs.foldl (fun acc r => (loginLimiter acc ip r.1).2) m := by
  intro reqs
  induction reqs with
  | nil => intro m rs; rfl
  | cons hd tl ih =>
      intro m rs
      rw [List.foldl_cons, List.foldl_cons]
      exact (ih _ _).trans (by rw [loginRoute_snd])

/-- C10: the throttle counter counts every login request inside the
window no matter what the credentials are — after five requests (with
any emails and passwords, valid or not) within the window of the first,
a sixth request inside the same window is denied with the 429 response. -/
theorem sixth_login_throttled_regardless_of_credentials
    (store : List UserRec) (ip : String)
    (compare : String → String → Bool) (sign : Nat → String → String)
    (t1 t2 t3 t4 t5 t6 : Int)
    (e1 e2 e3 e4 e5 e6 p1 p2 p3 p4 p5 p6 : Option String)
    (h2 : t2 - t1 < WINDOW_TIME) (h3 : t3 - t1 < WINDOW_TIME)
    (h4 : t4 - t1 < WINDOW_TIME) (h5 : t5 - t1 < WINDOW_TIME)
    (h6 : t6 - t1 < WINDOW_TIME) :
    (loginRoute
        (loginSession emptyAttempts store ip compare sign
          [(t1, e1, p1), (t2, e2, p2), (t3, e3, p3), (t4, e4, p4),
           (t5, e5, p5)]).1
        store ip t6 e6 p6 compare sign).1
      = ⟨429, { message := some "Too many requests" }⟩ := by
  have hfold :
      (loginSession emptyAttempts store ip compare sign
        [(t1, e1, p1), (t2, e2, p2), (t3, e3, p3), (t4, e4, p4),
         (t5, e5, p5)]).1
      = [(t1, e1, p1), (t2, e2, p2), (t3, e3, p3), (t4, e4, p4),
         (t5, e5, p5)].foldl
          (fun acc r => (loginLimiter acc ip r.1).2) emptyAttempts := by
    rw [loginSession]
    exact loginSession_fold_fst store ip compare sign _ emptyAttempts []
  have hm5 :
      ((loginSession emptyAttempts store ip compare sign
        [(t1, e1, p1), (t2, e2, p2), (t3, e3, p3), (t4, e4, p4),
         (t5, e5, p5)]).1) ip = some ⟨5, t1⟩ := by
    rw [hfold]
    simp [loginLimiter, emptyAttempts, setAttempt, MAX_ATTEMPTS, h2, h3,
      h4, h5]
  rw [loginRoute]
  have hden :
      loginLimiter
        (loginSession emptyAttempts store ip compare sign
          [(t1, e1, p1), (t2, e2, p2), (t3, e3, p3), (t4, e4, p4),
           (t5, e5, p5)]).1 ip t6
      = (some ⟨429, { message := some "Too many requests" }⟩,
         setAttempt
           (loginSession emptyAttempts store ip compare sign
             [(t1, e1, p1), (t2, e2, p2), (t3, e3, p3), (t4, e4, p4),
              (t5, e5, p5)]).1 ip ⟨6, t1⟩) := by
    rw [loginLimiter, hm5]
    simp [MAX_ATTEMPTS, h6]
  rw [hden]

/-- Witness for sixth_login_throttled_regardless_of_credentials: five
SUCCESSFUL logins (each answering 200) from one address within the
window, then a sixth request in the window: it is denied with 429. -/
theorem sixth_login_throttled_witness :
    ((loginSession emptyAttempts [alice] "c" demoCompare demoSign
        [(0, some "a@x.com", some "Abcdef12"),
         (1, some "a@x.com", some "Abcdef12"),
         (2, some "a@x.com", some "Abcdef12"),
         (3, some "a@x.com", some "Abcdef12"),
         (4, some "a@x.com", some "Abcdef12")]).2.map Response.status)
      = [200, 200, 200, 200, 200] ∧
    (loginRoute
        (loginSession emptyAttempts [alice] "c" demoCompare demoSign
          [(0, some "a@x.com", some "Abcdef12"),
           (1, some "a@x.com", some "Abcdef12"),
           (2, some "a@x.com", some "Abcdef12"),
           (3, some "a@x.com", some "Abcdef12"),
           (4, some "a@x.com", some "Abcdef12")]).1
        [alice] "c" 5 (some "a@x.com") (some "Abcdef12") demoCompare
        demoSign).1
      = ⟨429, { message := some "Too many requests" }⟩ :=
  ⟨by decide,
   sixth_login_throttled_regardless_of_credentials [alice] "c" demoCompare
     demoSign 0 1 2 3 4 5 (some "a@x.com") (some "a@x.com")
     (some "a@x.com") (some "a@x.com") (some "a@x.com") (some "a@x.com")
     (some "Abcdef12") (some "Abcdef12") (some "Abcdef12")
     (some "Abcdef12") (some "Abcdef12") (some "Abcdef12") (by decide)
     (by decide) (by decide) (by decide) (by decide)⟩
